import Mathlib

/-!
Verification of the Oil Record Book Tool's configuration loader and
application factory (src/config.py and src/app.py), as a shallow embedding:
pure Python expressions become Lean functions, the process environment is an
explicit map, the factory's mutation of per-application config dictionaries
is modelled by an explicit heap, and fallible Python operations (dict
lookup raising KeyError, int() raising ValueError) return Except/Option.
-/

/-! ## Python primitives used by the source -/

/-- The process environment (`os.environ`): a partial map from variable
names to string values. -/
def Env : Type := String → Option String

/-- `os.environ.get(key, default)`. -/
def envGet (env : Env) (key dflt : String) : String :=
  (env key).getD dflt

/-- `str.lower()` (ASCII case folding, which is all the source applies it to). -/
def pyLower (s : String) : String :=
  String.mk (s.data.map Char.toLower)

/-- Leading- and trailing-whitespace removal, as `int()` performs on its
string argument before parsing. -/
def pyStrip (s : String) : String :=
  String.mk (((s.data.dropWhile Char.isWhitespace).reverse.dropWhile
    Char.isWhitespace).reverse)

/-- Accumulator pass of decimal-digit parsing. -/
def digitsToNatAux : List Char → Nat → Option Nat
  | [], acc => some acc
  | c :: cs, acc =>
      if c.isDigit then digitsToNatAux cs (acc * 10 + (c.toNat - '0'.toNat))
      else none

/-- Parse a nonempty all-digit character list as a natural number. -/
def digitsToNat : List Char → Option Nat
  | [] => none
  | c :: cs => digitsToNatAux (c :: cs) 0

/-- Python's `int(s)` on a string: strip whitespace, optional sign, then a
nonempty run of decimal digits; any other shape raises ValueError, modelled
as `none`.  (Digit-group underscores, which no caller here produces, are not
modelled.) -/
def pyInt (s : String) : Option Int :=
  match (pyStrip s).data with
  | '-' :: rest => (digitsToNat rest).map (fun n => -(n : Int))
  | '+' :: rest => (digitsToNat rest).map (fun n => (n : Int))
  | t => (digitsToNat t).map (fun n => (n : Int))

/-- Split a character list at every occurrence of `sep`, keeping empty
pieces, as Python's `str.split` with an explicit separator does. -/
def splitOnCharAux (sep : Char) : List Char → List (List Char)
  | [] => [[]]
  | x :: xs =>
      let r := splitOnCharAux sep xs
      if x = sep then [] :: r
      else
        match r with
        | [] => [[x]]
        | piece :: rest => (x :: piece) :: rest

/-- Python's `s.split(sep)` for a one-character separator. -/
def pySplit (s : String) (sep : Char) : List String :=
  (splitOnCharAux sep s.data).map String.mk

/-! ## src/config.py -/

/-- The uppercase attributes a configuration class carries, i.e. the fields
Flask's `Config.from_object` copies.  `DEBUG` and `TESTING` are absent on
the base class and only introduced by specific subclasses, hence `Option`.
`BASE_DIR` (`Path(__file__).parent.parent`) is an ambient filesystem path;
it is the `BASE_DIR` argument threaded through the constructors. -/
structure PyConfig where
  BASE_DIR : String
  SECRET_KEY : String
  SQLALCHEMY_DATABASE_URI : String
  SQLALCHEMY_TRACK_MODIFICATIONS : Bool
  SOUNDING_TABLES_PATH : String
  WTF_CSRF_ENABLED : Bool
  WTF_CSRF_TIME_LIMIT : Nat
  MAX_CONTENT_LENGTH : Nat
  RATELIMIT_STORAGE_URL : String
  CORS_ORIGINS : List String
  SESSION_COOKIE_SECURE : Bool
  SESSION_COOKIE_HTTPONLY : Bool
  SESSION_COOKIE_SAMESITE : String
  LOG_LEVEL : String
  LOG_DIR : String
  LOG_JSON_FORMAT : Bool
  LOG_MAX_BYTES : Int
  LOG_BACKUP_COUNT : Int
  DEBUG : Option Bool
  TESTING : Option Bool
  deriving DecidableEq, Repr, Inhabited

/-- Class `Config` of src/config.py: the base configuration, whose class
body evaluates against the environment at import time.  `int()` on the two
numeric variables can raise, so construction is fallible (`none` = the
module fails to import). -/
def Config_mk (baseDir : String) (env : Env) : Option PyConfig :=
  match (match env "LOG_MAX_BYTES" with
         | some s => pyInt s
         | none => some ((10 : Int) * 1024 * 1024)),
        (match env "LOG_BACKUP_COUNT" with
         | some s => pyInt s
         | none => some (5 : Int)) with
  | some logMaxBytes, some logBackupCount =>
    some {
    BASE_DIR := baseDir
    SECRET_KEY := envGet env "SECRET_KEY" "dev-key-change-in-production"
    SQLALCHEMY_DATABASE_URI :=
      envGet env "DATABASE_URL" ("sqlite:///" ++ baseDir ++ "/data/orb.db")
    SQLALCHEMY_TRACK_MODIFICATIONS := false
    SOUNDING_TABLES_PATH := baseDir ++ "/data/sounding_tables.json"
    WTF_CSRF_ENABLED := true
    WTF_CSRF_TIME_LIMIT := 3600
    MAX_CONTENT_LENGTH := 16 * 1024 * 1024
    RATELIMIT_STORAGE_URL := envGet env "REDIS_URL" "memory://"
    CORS_ORIGINS :=
      pySplit (envGet env "CORS_ORIGINS"
        "http://localhost:5001,https://localhost:5001") ','
    SESSION_COOKIE_SECURE :=
      pyLower (envGet env "SESSION_SECURE" "False") == "true"
    SESSION_COOKIE_HTTPONLY := true
    SESSION_COOKIE_SAMESITE := "Lax"
    LOG_LEVEL := envGet env "LOG_LEVEL" "INFO"
    LOG_DIR := baseDir ++ "/logs"
    LOG_JSON_FORMAT := pyLower (envGet env "LOG_JSON_FORMAT" "True") == "true"
    LOG_MAX_BYTES := logMaxBytes
    LOG_BACKUP_COUNT := logBackupCount
    DEBUG := none
    TESTING := none }
  | _, _ => none

/-- Class `DevelopmentConfig(Config)`: overrides `DEBUG`, `LOG_LEVEL` and
`LOG_JSON_FORMAT`. -/
def DevelopmentConfig_mk (baseDir : String) (env : Env) : Option PyConfig :=
  (Config_mk baseDir env).map fun c =>
    { c with
      DEBUG := some true
      LOG_LEVEL := envGet env "LOG_LEVEL" "DEBUG"
      LOG_JSON_FORMAT := pyLower (envGet env "LOG_JSON_FORMAT" "False") == "true" }

/-- Class `ProductionConfig(Config)`: overrides `DEBUG`, `LOG_LEVEL` and
`LOG_JSON_FORMAT`. -/
def ProductionConfig_mk (baseDir : String) (env : Env) : Option PyConfig :=
  (Config_mk baseDir env).map fun c =>
    { c with
      DEBUG := some false
      LOG_LEVEL := envGet env "LOG_LEVEL" "INFO"
      LOG_JSON_FORMAT := true }

/-- Class `TestingConfig(Config)`: overrides `TESTING`, the database URI,
`LOG_LEVEL` and `LOG_JSON_FORMAT` with constants. -/
def TestingConfig_mk (baseDir : String) (env : Env) : Option PyConfig :=
  (Config_mk baseDir env).map fun c =>
    { c with
      TESTING := some true
      SQLALCHEMY_DATABASE_URI := "sqlite:///:memory:"
      LOG_LEVEL := "WARNING"
      LOG_JSON_FORMAT := false }

/-- The loaded src/config.py module: the four entries of its `config` dict.
`"default"` is bound to the same class object as `"development"`. -/
structure ConfigModule where
  development : PyConfig
  production : PyConfig
  testing : PyConfig
  defaultCfg : PyConfig
  deriving DecidableEq, Repr, Inhabited

/-- Importing src/config.py: evaluate every class body, then build the
`config` dict.  Fails (`none`) when any `int()` coercion raises. -/
def loadConfig (baseDir : String) (env : Env) : Option ConfigModule :=
  match DevelopmentConfig_mk baseDir env, ProductionConfig_mk baseDir env,
        TestingConfig_mk baseDir env with
  | some dev, some prod, some test => some ⟨dev, prod, test, dev⟩
  | _, _, _ => none

/-- Indexing the `config` dict: `config[name]`, `none` meaning KeyError. -/
def ConfigModule.lookup (m : ConfigModule) (name : String) : Option PyConfig :=
  if name = "development" then some m.development
  else if name = "production" then some m.production
  else if name = "testing" then some m.testing
  else if name = "default" then some m.defaultCfg
  else none

/-! ## src/app.py -/

/-- A value stored in a Flask `app.config` dictionary entry. -/
inductive ConfigValue where
  | vStr (s : String)
  | vBool (b : Bool)
  | vInt (n : Int)
  | vStrList (l : List String)
  deriving DecidableEq, Repr

/-- A per-application `app.config` dictionary: insertion-ordered key/value
pairs, keys unique by construction of the operations below. -/
abbrev AppConfigDict := List (String × ConfigValue)

/-- Dictionary assignment `d[k] = v`: overwrite in place when the key
exists, append otherwise. -/
def configSet (d : AppConfigDict) (k : String) (v : ConfigValue) :
    AppConfigDict :=
  if d.any (fun kv => kv.1 == k) then
    d.map (fun kv => if kv.1 == k then (k, v) else kv)
  else d ++ [(k, v)]

/-- Dictionary lookup `d.get(k)`. -/
def configGet (d : AppConfigDict) (k : String) : Option ConfigValue :=
  (d.find? (fun kv => kv.1 == k)).map Prod.snd

/-- Flask's `app.config.from_object(cls)`: the uppercase attributes of the
configuration class, copied value by value into a fresh dictionary.
`DEBUG`/`TESTING` are copied only when the class defines them. -/
def toDict (c : PyConfig) : AppConfigDict :=
  [("BASE_DIR", .vStr c.BASE_DIR),
   ("SECRET_KEY", .vStr c.SECRET_KEY),
   ("SQLALCHEMY_DATABASE_URI", .vStr c.SQLALCHEMY_DATABASE_URI),
   ("SQLALCHEMY_TRACK_MODIFICATIONS", .vBool c.SQLALCHEMY_TRACK_MODIFICATIONS),
   ("SOUNDING_TABLES_PATH", .vStr c.SOUNDING_TABLES_PATH),
   ("WTF_CSRF_ENABLED", .vBool c.WTF_CSRF_ENABLED),
   ("WTF_CSRF_TIME_LIMIT", .vInt c.WTF_CSRF_TIME_LIMIT),
   ("MAX_CONTENT_LENGTH", .vInt c.MAX_CONTENT_LENGTH),
   ("RATELIMIT_STORAGE_URL", .vStr c.RATELIMIT_STORAGE_URL),
   ("CORS_ORIGINS", .vStrList c.CORS_ORIGINS),
   ("SESSION_COOKIE_SECURE", .vBool c.SESSION_COOKIE_SECURE),
   ("SESSION_COOKIE_HTTPONLY", .vBool c.SESSION_COOKIE_HTTPONLY),
   ("SESSION_COOKIE_SAMESITE", .vStr c.SESSION_COOKIE_SAMESITE),
   ("LOG_LEVEL", .vStr c.LOG_LEVEL),
   ("LOG_DIR", .vStr c.LOG_DIR),
   ("LOG_JSON_FORMAT", .vBool c.LOG_JSON_FORMAT),
   ("LOG_MAX_BYTES", .vInt c.LOG_MAX_BYTES),
   ("LOG_BACKUP_COUNT", .vInt c.LOG_BACKUP_COUNT)]
  ++ (match c.DEBUG with | some b => [("DEBUG", .vBool b)] | none => [])
  ++ (match c.TESTING with | some b => [("TESTING", .vBool b)] | none => [])

/-- The mutable process state the factory touches: a heap of per-application
config dictionaries (fresh address per `Flask(...)` call), the set of tables
in the configured database, and an append-only log of the subsystem
initialisations performed. -/
structure World where
  nextAddr : Nat
  heap : Nat → Option AppConfigDict
  tables : List String
  initLog : List String

/-- Mutate one key of the config dictionary at `addr`:
`app.config[k] = v` for the application owning that dictionary. -/
def World.setAppConfig (w : World) (addr : Nat) (k : String)
    (v : ConfigValue) : World :=
  { w with
    heap := fun a =>
      if a = addr then (w.heap addr).map (fun d => configSet d k v)
      else w.heap a }

/-- What `db.create_all()` would do: materialise the model tables.  The
factory never calls it (the source notes it was removed in favour of
migrations); it is here so the frame theorems say something falsifiable. -/
def db_create_all (w : World) : World :=
  { w with tables := (w.tables ++ ["users", "soundings", "fuel_tickets", "hitches"]).dedup }

/-- A page route registered on the application: its URL rule, the template
its handler renders (`render_template` with no further context), and
whether the handler is wrapped in `login_required`. -/
structure PageRoute where
  path : String
  template : String
  requiresLogin : Bool
  deriving DecidableEq, Repr, Inhabited

/-- Errors Python raises in the embedded fragment. -/
inductive PyError where
  | keyError (k : String)
  | valueError (s : String)
  deriving DecidableEq, Repr

/-- The application object `create_app` returns: the address of its own
config dictionary plus the login-manager settings, blueprints and routes
registered on it. -/
structure FlaskApp where
  configAddr : Nat
  loginView : String
  loginMessage : String
  loginMessageCategory : String
  hasUserLoader : Bool
  blueprints : List (String × String)
  routes : List PageRoute
  deriving DecidableEq, Repr, Inhabited

/-- `config_name = config_name if config_name is not None else
os.environ.get("FLASK_ENV", "development")` — the first two lines of the
factory body. -/
def resolveConfigName (configName : Option String) (env : Env) : String :=
  match configName with
  | some n => n
  | none => envGet env "FLASK_ENV" "development"

/-- `create_app` of src/app.py, statement by statement: resolve the profile
name; `Flask(...)` allocates a fresh (empty) config dictionary;
`config[config_name]` looks the class up, raising KeyError on a miss
before any subsystem is initialised; `from_object` copies the class into
the dictionary; then `db.init_app`, `Migrate`, the login-manager setup, the
`api` blueprint under "/api", and the five template-rendering page routes.
No statement touches the database tables. -/
def create_app (configName : Option String) (env : Env)
    (cfgs : ConfigModule) (w : World) : Except PyError FlaskApp × World :=
  let name := resolveConfigName configName env
  let addr := w.nextAddr
  let w1 : World :=
    { w with
      nextAddr := w.nextAddr + 1
      heap := fun a => if a = addr then some [] else w.heap a }
  match cfgs.lookup name with
  | none => (.error (.keyError name), w1)
  | some cfg =>
    let w2 : World :=
      { w1 with
        heap := fun a => if a = addr then some (toDict cfg) else w1.heap a }
    let w3 : World :=
      { w2 with
        initLog := w2.initLog ++
          ["db.init_app", "Migrate", "login_manager.init_app",
           "register_blueprint:api:/api",
           "route:/", "route:/soundings", "route:/history", "route:/fuel",
           "route:/new-hitch"] }
    let app : FlaskApp :=
      { configAddr := addr
        loginView := "auth.login"
        loginMessage := "Please log in to access this page."
        loginMessageCategory := "info"
        hasUserLoader := true
        blueprints := [("api", "/api")]
        routes :=
          [⟨"/", "dashboard.html", false⟩,
           ⟨"/soundings", "soundings.html", false⟩,
           ⟨"/history", "history.html", false⟩,
           ⟨"/fuel", "fuel.html", false⟩,
           ⟨"/new-hitch", "new_hitch.html", false⟩] }
    (.ok app, w3)

/-! ## The user loader (src/app.py, `load_user`) -/

/-- The `User` model as far as the factory sees it: an integer primary key
(and a name standing for the unseen remaining columns). -/
structure User where
  id : Int
  username : String
  deriving DecidableEq, Repr, Inhabited

/-- `User.query.get(pk)`: the row whose primary key equals `pk`, if any. -/
def query_get (db : List User) (pk : Int) : Option User :=
  db.find? (fun u => u.id == pk)

/-- `load_user(user_id)` registered with the login manager:
`return User.query.get(int(user_id))`.  `int()` raises ValueError on a
string that is not an optionally-signed run of digits; only then is the
primary-key lookup performed. -/
def load_user (db : List User) (user_id : String) :
    Except PyError (Option User) :=
  match pyInt user_id with
  | none => .error (.valueError user_id)
  | some n => .ok (query_get db n)

/-! ## Helper lemmas -/

/-- Fields of the base class that no subclass overrides, expressed in terms
of the environment. -/
theorem Config_mk_base_fields (b : String) (env : Env) (c : PyConfig)
    (h : Config_mk b env = some c) :
    c.SESSION_COOKIE_SECURE
      = (pyLower (envGet env "SESSION_SECURE" "False") == "true") ∧
    c.CORS_ORIGINS
      = pySplit (envGet env "CORS_ORIGINS"
          "http://localhost:5001,https://localhost:5001") ',' := by
  unfold Config_mk at h
  split at h
  · cases h
    exact ⟨rfl, rfl⟩
  · cases h

/-- Any class reachable from the `config` dict leaves the base class's
`SESSION_COOKIE_SECURE` and `CORS_ORIGINS` untouched. -/
theorem profile_base_fields (b : String) (env : Env) (m : ConfigModule)
    (name : String) (c : PyConfig)
    (hm : loadConfig b env = some m) (hc : m.lookup name = some c) :
    c.SESSION_COOKIE_SECURE
      = (pyLower (envGet env "SESSION_SECURE" "False") == "true") ∧
    c.CORS_ORIGINS
      = pySplit (envGet env "CORS_ORIGINS"
          "http://localhost:5001,https://localhost:5001") ',' := by
  unfold loadConfig at hm
  split at hm
  case h_2 => cases hm
  case h_1 dev prod test hdev hprod htest =>
    cases hm
    unfold DevelopmentConfig_mk at hdev
    unfold ProductionConfig_mk at hprod
    unfold TestingConfig_mk at htest
    rw [Option.map_eq_some'] at hdev hprod htest
    obtain ⟨cd, hcd, hdev⟩ := hdev
    obtain ⟨cp, hcp, hprod⟩ := hprod
    obtain ⟨ct, hct, htest⟩ := htest
    have hd := Config_mk_base_fields b env cd hcd
    have hp := Config_mk_base_fields b env cp hcp
    have ht := Config_mk_base_fields b env ct hct
    unfold ConfigModule.lookup at hc
    split_ifs at hc <;> cases hc
    · rw [← hdev]; exact ⟨hd.1, hd.2⟩
    · rw [← hprod]; exact ⟨hp.1, hp.2⟩
    · rw [← htest]; exact ⟨ht.1, ht.2⟩
    · rw [← hdev]; exact ⟨hd.1, hd.2⟩

/-- Decomposition of a successful import of src/config.py into its four
dict entries; `"default"` carries the same class as `"development"`. -/
theorem loadConfig_eq (b : String) (env : Env) (m : ConfigModule)
    (h : loadConfig b env = some m) :
    DevelopmentConfig_mk b env = some m.development ∧
    ProductionConfig_mk b env = some m.production ∧
    TestingConfig_mk b env = some m.testing ∧
    m.defaultCfg = m.development := by
  unfold loadConfig at h
  split at h
  case h_1 dev prod test hdev hprod htest =>
    cases h
    exact ⟨hdev, hprod, htest, rfl⟩
  case h_2 => cases h

/-- An environment that binds nothing: every variable unset. -/
def envNone : Env := fun _ => none

/-- The config module as imported under the empty environment. -/
def cmNone : ConfigModule := (loadConfig "." envNone).getD default

/-! ## C2 -/

/-- C2: for every environment (in particular every assignment of
DATABASE_URL and LOG_LEVEL), the testing profile obtained from the `config`
dict has database URI "sqlite:///:memory:" and log level "WARNING" — both
fields are environment-independent. -/
theorem c2_testing_profile_fixed (b : String) (env : Env) (m : ConfigModule)
    (c : PyConfig) (hm : loadConfig b env = some m)
    (hc : m.lookup "testing" = some c) :
    c.SQLALCHEMY_DATABASE_URI = "sqlite:///:memory:" ∧
    c.LOG_LEVEL = "WARNING" := by
  obtain ⟨-, -, ht, -⟩ := loadConfig_eq b env m hm
  have hct : some m.testing = some c := hc
  cases hct
  unfold TestingConfig_mk at ht
  rw [Option.map_eq_some'] at ht
  obtain ⟨c0, -, hc0⟩ := ht
  rw [← hc0]
  exact ⟨rfl, rfl⟩

/-- Environment used to witness C2: both variables the claim quantifies
over are set to values that differ from the testing profile's constants. -/
def envC2 : Env := fun k =>
  if k = "DATABASE_URL" then some "postgresql://example/db"
  else if k = "LOG_LEVEL" then some "DEBUG" else none

/-- The config module imported under `envC2`. -/
def cmC2 : ConfigModule := (loadConfig "." envC2).getD default

/-- The testing profile under `envC2`. -/
def cfgC2 : PyConfig := (cmC2.lookup "testing").getD default

/-- Witness for C2: with DATABASE_URL and LOG_LEVEL both set, the testing
profile still carries the in-memory URI and "WARNING". -/
theorem c2_witness :
    cfgC2.SQLALCHEMY_DATABASE_URI = "sqlite:///:memory:" ∧
    cfgC2.LOG_LEVEL = "WARNING" :=
  c2_testing_profile_fixed "." envC2 cmC2 cfgC2 rfl rfl

/-! ## C5 -/

/-- C5: whichever profile is loaded from the `config` dict, setting
SESSION_SECURE to "true" makes SESSION_COOKIE_SECURE true, and leaving
SESSION_SECURE unset makes it false. -/
theorem c5_session_secure_flag (b : String) (env : Env) (m : ConfigModule)
    (name : String) (c : PyConfig)
    (hm : loadConfig b env = some m) (hc : m.lookup name = some c) :
    (env "SESSION_SECURE" = some "true" → c.SESSION_COOKIE_SECURE = true) ∧
    (env "SESSION_SECURE" = none → c.SESSION_COOKIE_SECURE = false) := by
  obtain ⟨hs, -⟩ := profile_base_fields b env m name c hm hc
  constructor
  · intro he
    rw [hs]
    simp only [envGet, he, Option.getD_some]
    decide
  · intro he
    rw [hs]
    simp only [envGet, he, Option.getD_none]
    decide

/-- Environment with SESSION_SECURE set to "true". -/
def envC5 : Env := fun k => if k = "SESSION_SECURE" then some "true" else none

/-- The config module imported under `envC5`. -/
def cmC5 : ConfigModule := (loadConfig "." envC5).getD default

/-- The production profile under `envC5`. -/
def cfgC5 : PyConfig := (cmC5.lookup "production").getD default

/-- The production profile under the empty environment. -/
def cfgC5off : PyConfig := (cmNone.lookup "production").getD default

/-- Witness for C5: SESSION_SECURE="true" turns the secure-cookie flag on;
an empty environment leaves it off. -/
theorem c5_witness :
    cfgC5.SESSION_COOKIE_SECURE = true ∧
    cfgC5off.SESSION_COOKIE_SECURE = false :=
  ⟨(c5_session_secure_flag "." envC5 cmC5 "production" cfgC5 rfl rfl).1 rfl,
   (c5_session_secure_flag "." envNone cmNone "production" cfgC5off rfl rfl).2
     rfl⟩

/-! ## C6 -/

/-- C6: whichever profile is loaded, when CORS_ORIGINS is set its value in
the configuration is the comma-split of the environment string. -/
theorem c6_cors_comma_split (b : String) (env : Env) (m : ConfigModule)
    (name : String) (c : PyConfig) (s : String)
    (hm : loadConfig b env = some m) (hc : m.lookup name = some c)
    (hs : env "CORS_ORIGINS" = some s) :
    c.CORS_ORIGINS = pySplit s ',' := by
  obtain ⟨-, hco⟩ := profile_base_fields b env m name c hm hc
  rw [hco]
  simp only [envGet, hs, Option.getD_some]

/-- Environment with CORS_ORIGINS set to the claim's two-origin string. -/
def envC6 : Env := fun k =>
  if k = "CORS_ORIGINS" then some "http://a.com,http://b.com" else none

/-- The config module imported under `envC6`. -/
def cmC6 : ConfigModule := (loadConfig "." envC6).getD default

/-- The development profile under `envC6`. -/
def cfgC6 : PyConfig := (cmC6.lookup "development").getD default

/-- Witness for C6: "http://a.com,http://b.com" yields exactly the two
origins in order. -/
theorem c6_witness :
    cfgC6.CORS_ORIGINS = ["http://a.com", "http://b.com"] := by
  have h := c6_cors_comma_split "." envC6 cmC6 "development" cfgC6
    "http://a.com,http://b.com" rfl rfl rfl
  rw [h]
  decide

/-! ## C9 -/

/-- C9: under any environment, the "default" entry of the `config` dict is
the very configuration the "development" entry denotes, so every field of
the default profile equals the corresponding development field. -/
theorem c9_default_is_development (b : String) (env : Env) (m : ConfigModule)
    (hm : loadConfig b env = some m) :
    m.lookup "default" = m.lookup "development" := by
  obtain ⟨-, -, -, hd⟩ := loadConfig_eq b env m hm
  show some m.defaultCfg = some m.development
  rw [hd]

/-- Witness for C9 at the empty environment. -/
theorem c9_witness :
    cmNone.lookup "default" = cmNone.lookup "development" :=
  c9_default_is_development "." envNone cmNone rfl

/-! ## C7 -/

/-- C7: the factory's profile resolution — an explicit argument wins, else
FLASK_ENV, else "development". -/
theorem c7_profile_resolution (env : Env) :
    (∀ n, resolveConfigName (some n) env = n) ∧
    (∀ v, env "FLASK_ENV" = some v → resolveConfigName none env = v) ∧
    (env "FLASK_ENV" = none → resolveConfigName none env = "development") := by
  refine ⟨fun n => rfl, fun v hv => ?_, fun h => ?_⟩ <;>
    simp [resolveConfigName, envGet, *]

/-- Environment with FLASK_ENV set. -/
def envC7 : Env := fun k => if k = "FLASK_ENV" then some "production" else none

/-- Witness for C7: all three resolution branches at concrete inputs. -/
theorem c7_witness :
    resolveConfigName (some "testing") envC7 = "testing" ∧
    resolveConfigName none envC7 = "production" ∧
    resolveConfigName none envNone = "development" :=
  ⟨(c7_profile_resolution envC7).1 "testing",
   (c7_profile_resolution envC7).2.1 "production" rfl,
   (c7_profile_resolution envNone).2.2 rfl⟩

/-! ## C4 -/

/-- C4: the factory never touches the database tables — whatever profile
name is passed (or resolved), and whether the config lookup succeeds or
raises, the table set after `create_app` equals the table set before. -/
theorem c4_factory_preserves_tables (configName : Option String) (env : Env)
    (cfgs : ConfigModule) (w : World) :
    ((create_app configName env cfgs w).2).tables = w.tables := by
  simp only [create_app]
  split <;> rfl

/-! ## C10 -/

/-- Indexing the `config` dict with a name outside its four keys raises. -/
theorem lookup_unknown_none (m : ConfigModule) (name : String)
    (h1 : name ≠ "development") (h2 : name ≠ "production")
    (h3 : name ≠ "testing") (h4 : name ≠ "default") :
    m.lookup name = none := by
  simp [ConfigModule.lookup, h1, h2, h3, h4]

/-- C10: a profile name outside the four dict keys — passed directly or
arriving through FLASK_ENV — makes the factory raise KeyError for that
name, with no subsystem initialised and no table created, instead of
falling back to the default profile. -/
theorem c10_unknown_profile_raises (name : String) (env : Env)
    (cfgs : ConfigModule) (w : World)
    (h1 : name ≠ "development") (h2 : name ≠ "production")
    (h3 : name ≠ "testing") (h4 : name ≠ "default") :
    (create_app (some name) env cfgs w).1 = .error (.keyError name) ∧
    (create_app (some name) env cfgs w).2.initLog = w.initLog ∧
    (create_app (some name) env cfgs w).2.tables = w.tables ∧
    (env "FLASK_ENV" = some name →
      (create_app none env cfgs w).1 = .error (.keyError name)) := by
  have hl := lookup_unknown_none cfgs name h1 h2 h3 h4
  refine ⟨?_, ?_, ?_, fun he => ?_⟩
  · simp only [create_app, resolveConfigName]
    rw [hl]
  · simp only [create_app, resolveConfigName]
    rw [hl]
  · simp only [create_app, resolveConfigName]
    rw [hl]
  · simp only [create_app, resolveConfigName, envGet, he, Option.getD_some]
    rw [hl]

/-- The empty initial world: no dictionaries, no tables, nothing
initialised. -/
def w0W : World := ⟨0, fun _ => none, [], []⟩

/-- Witness for C10: profile "staging" raises KeyError and initialises
nothing. -/
theorem c10_witness :
    (create_app (some "staging") envNone cmNone w0W).1
      = .error (.keyError "staging") ∧
    (create_app (some "staging") envNone cmNone w0W).2.initLog
      = w0W.initLog := by
  have h := c10_unknown_profile_raises "staging" envNone cmNone w0W
    (by decide) (by decide) (by decide) (by decide)
  exact ⟨h.1, h.2.1⟩

/-! ## C3 -/

/-- Writing one application's config dictionary leaves any dictionary at a
different address unchanged. -/
theorem setAppConfig_frame (w : World) (a b : Nat) (k : String)
    (v : ConfigValue) (hab : b ≠ a) :
    (w.setAppConfig a k v).heap b = w.heap b := by
  simp [World.setAppConfig, hab]

/-- A successful factory call hands the application the world's previous
fresh address and advances that address by one. -/
theorem create_app_fresh_addr (configName : Option String) (env : Env)
    (cfgs : ConfigModule) (w w' : World) (a : FlaskApp)
    (h : create_app configName env cfgs w = (.ok a, w')) :
    a.configAddr = w.nextAddr ∧ w'.nextAddr = w.nextAddr + 1 := by
  simp only [create_app] at h
  split at h
  · cases h
  · simp only [Prod.mk.injEq, Except.ok.injEq] at h
    obtain ⟨ha, hw⟩ := h
    subst ha
    subst hw
    exact ⟨rfl, rfl⟩

/-- C3: two consecutive factory calls with the same profile name produce
applications whose config dictionaries live at distinct addresses, so
mutating any key of either instance's settings leaves the other instance's
settings (every key of them) unchanged. -/
theorem c3_instances_independent (configName : Option String) (env : Env)
    (cfgs : ConfigModule) (w0 w1 w2 : World) (a1 a2 : FlaskApp)
    (h1 : create_app configName env cfgs w0 = (.ok a1, w1))
    (h2 : create_app configName env cfgs w1 = (.ok a2, w2)) :
    a1.configAddr ≠ a2.configAddr ∧
    (∀ k v, (w2.setAppConfig a1.configAddr k v).heap a2.configAddr
        = w2.heap a2.configAddr) ∧
    (∀ k v, (w2.setAppConfig a2.configAddr k v).heap a1.configAddr
        = w2.heap a1.configAddr) := by
  obtain ⟨ha1, hw1⟩ := create_app_fresh_addr configName env cfgs w0 w1 a1 h1
  obtain ⟨ha2, -⟩ := create_app_fresh_addr configName env cfgs w1 w2 a2 h2
  have hne : a1.configAddr ≠ a2.configAddr := by
    rw [ha1, ha2, hw1]
    omega
  exact ⟨hne,
    fun k v => setAppConfig_frame w2 a1.configAddr a2.configAddr k v hne.symm,
    fun k v => setAppConfig_frame w2 a2.configAddr a1.configAddr k v hne⟩

/-- First factory call of the C3/C8 witness scenario. -/
def callOne : Except PyError FlaskApp × World :=
  create_app (some "development") envNone cmNone w0W

/-- The application the first call returns. -/
def appOne : FlaskApp := callOne.1.toOption.getD default

/-- The world after the first call. -/
def worldOne : World := callOne.2

/-- Second factory call, against the world the first call left. -/
def callTwo : Except PyError FlaskApp × World :=
  create_app (some "development") envNone cmNone worldOne

/-- The application the second call returns. -/
def appTwo : FlaskApp := callTwo.1.toOption.getD default

/-- The world after the second call. -/
def worldTwo : World := callTwo.2

/-- Witness for C3: the two concrete instances' dictionaries are at
different addresses, and a write through the first leaves the second's
dictionary untouched. -/
theorem c3_witness :
    appOne.configAddr ≠ appTwo.configAddr ∧
    (worldTwo.setAppConfig appOne.configAddr "DEBUG" (.vBool false)).heap
        appTwo.configAddr
      = worldTwo.heap appTwo.configAddr := by
  have h := c3_instances_independent (some "development") envNone cmNone
    w0W worldOne worldTwo appOne appTwo rfl rfl
  exact ⟨h.1, h.2.1 "DEBUG" (.vBool false)⟩

/-! ## C8 -/

/-- C8: any successful factory call registers exactly the five page routes,
in source order, each rendering its named template and none wrapped in
`login_required`, and mounts the api blueprint under "/api". -/
theorem c8_page_routes (configName : Option String) (env : Env)
    (cfgs : ConfigModule) (w w' : World) (a : FlaskApp)
    (h : create_app configName env cfgs w = (.ok a, w')) :
    a.routes = [⟨"/", "dashboard.html", false⟩,
      ⟨"/soundings", "soundings.html", false⟩,
      ⟨"/history", "history.html", false⟩,
      ⟨"/fuel", "fuel.html", false⟩,
      ⟨"/new-hitch", "new_hitch.html", false⟩] ∧
    a.blueprints = [("api", "/api")] ∧
    ∀ r ∈ a.routes, r.requiresLogin = false := by
  simp only [create_app] at h
  split at h
  · cases h
  · simp only [Prod.mk.injEq, Except.ok.injEq] at h
    obtain ⟨ha, -⟩ := h
    subst ha
    refine ⟨rfl, rfl, ?_⟩
    intro r hr
    simp only [List.mem_cons, List.not_mem_nil, or_false] at hr
    rcases hr with rfl | rfl | rfl | rfl | rfl <;> rfl

/-- Witness for C8: the concrete application of the witness scenario has
the five routes and the api blueprint. -/
theorem c8_witness :
    appOne.routes = [⟨"/", "dashboard.html", false⟩,
      ⟨"/soundings", "soundings.html", false⟩,
      ⟨"/history", "history.html", false⟩,
      ⟨"/fuel", "fuel.html", false⟩,
      ⟨"/new-hitch", "new_hitch.html", false⟩] ∧
    appOne.blueprints = [("api", "/api")] := by
  have h := c8_page_routes (some "development") envNone cmNone w0W worldOne
    appOne rfl
  exact ⟨h.1, h.2.1⟩

/-! ## C1 -/

/-- C1 counterexample: the claim "load_user returns the absence signal
rather than raising for any string that does not parse to any existing
identifier, including non-numeric strings" is false — at the non-numeric
string "abc" (which parses to no identifier of any database, here the
empty one) `int()` raises ValueError, so `load_user` raises instead of
returning the absence signal. -/
theorem c1_counterexample :
    ¬ (∀ (db : List User) (s : String),
        (∀ n : Int, pyInt s = some n → query_get db n = none) →
        load_user db s = Except.ok none) := by
  intro h
  have h2 := h [] "abc" (fun n hn => by
    rw [show pyInt "abc" = none from rfl] at hn
    cases hn)
  rw [show load_user [] "abc" = Except.error (.valueError "abc") from rfl]
    at h2
  cases h2

/-- C1 amended: for every string that `int()` accepts, `load_user` returns
the primary-key lookup — the matching user when one exists, and the absence
signal (not an error) when none does; for a string `int()` rejects (e.g. a
non-numeric one), `load_user` raises ValueError. -/
theorem c1_load_user_amended (db : List User) (s : String) :
    (∀ n : Int, pyInt s = some n →
      load_user db s = Except.ok (query_get db n)) ∧
    (∀ (n : Int) (u : User), pyInt s = some n → query_get db n = some u →
      load_user db s = Except.ok (some u)) ∧
    (pyInt s = none → load_user db s = Except.error (.valueError s)) := by
  refine ⟨fun n hn => ?_, fun n u hn hu => ?_, fun hn => ?_⟩ <;>
    simp [load_user, hn, *]

/-- Witness for the amended C1: the string form "7" of an existing
identifier returns that user; a numeric string with no matching user
returns the absence signal; the non-numeric "abc" raises ValueError. -/
theorem c1_witness :
    load_user [⟨7, "alice"⟩] "7" = Except.ok (some ⟨7, "alice"⟩) ∧
    load_user [⟨7, "alice"⟩] "8" = Except.ok none ∧
    load_user [⟨7, "alice"⟩] "abc"
      = Except.error (.valueError "abc") := by
  refine ⟨?_, ?_, ?_⟩
  · exact (c1_load_user_amended [⟨7, "alice"⟩] "7").2.1 7 ⟨7, "alice"⟩
      (by decide) (by decide)
  · have h := (c1_load_user_amended [⟨7, "alice"⟩] "8").1 8 (by decide)
    rw [h]
    rfl
  · exact (c1_load_user_amended [⟨7, "alice"⟩] "abc").2.2 (by decide)
